import Mathlib

/-!
Verification of the ums-email-to-text pipeline (shallow embedding).

The embedding models the three source modules:
* `src/emailParser.mjs` — `retryOperation`, `moveToProcessed`, and the
  notification fan-out / archival phase of `parseEmail`, plus the zod
  `ServiceTicket` schema;
* `src/openphone.mjs` — `validatePhoneNumber`, `formatServiceTicketMessage`;
* `src/index.mjs` — the batch `handler`.

External effects (the object store, the SMS transport, the classifier,
wall-clock time) are passed in as explicit parameters: each fallible
external call is an `Except String` value describing its outcome, and
the current date is a `DateT` record, so every definition is executable.
-/

namespace Ums

instance {ε α : Type} [DecidableEq ε] [DecidableEq α] : DecidableEq (Except ε α) := fun x y =>
  match x, y with
  | .ok a, .ok b =>
    if h : a = b then isTrue (by rw [h]) else isFalse (by intro hc; cases hc; exact h rfl)
  | .error a, .error b =>
    if h : a = b then isTrue (by rw [h]) else isFalse (by intro hc; cases hc; exact h rfl)
  | .ok _, .error _ => isFalse (by intro h; cases h)
  | .error _, .ok _ => isFalse (by intro h; cases h)

/-! ## retryOperation (src/emailParser.mjs, lines 104-118)

`retryOperation(operation, maxRetries = 3)` loops `i` from `0` to
`maxRetries - 1`, returning the first success; on failure it records the
error and, when more attempts remain, sleeps `RETRY_DELAY * 2^i`.  After
the loop it throws `lastError` — which is still `undefined` when the loop
body never ran.  The model returns the outcome (errors are
`Option String`: `none` models throwing the JS value `undefined`), the
number of times the operation was invoked, and the list of delays slept.
-/

def RETRY_DELAY : Nat := 1000

/-- One step of the retry loop: `remaining` attempts left, the next call is
the `i`-th invocation of the operation, `lastError` is the error recorded so
far (`none` = the JS variable is still `undefined`). -/
def retryGo (op : Nat → Except String α) :
    Nat → Nat → Option String → Except (Option String) α × Nat × List Nat
  | 0, i, lastError => (.error lastError, i, [])
  | remaining + 1, i, _ =>
    match op i with
    | .ok v => (.ok v, i + 1, [])
    | .error e =>
      if remaining = 0 then
        (.error (some e), i + 1, [])
      else
        let r := retryGo op remaining (i + 1) (some e)
        (r.1, r.2.1, RETRY_DELAY * 2 ^ i :: r.2.2)

/-- `retryOperation` itself: `op i` is the outcome of the `i`-th invocation
(0-based) of the wrapped async operation. -/
def retryOperation (op : Nat → Except String α) (maxRetries : Nat := 3) :
    Except (Option String) α × Nat × List Nat :=
  retryGo op maxRetries 0 none

/-! ## validatePhoneNumber (src/openphone.mjs, lines 18-28)

`number.replace(/[^\d+]/g, '')` keeps every digit and every `+` (in
order), then the result must match `/^\+\d{11,15}$/`. -/

def keepDigitPlus (c : Char) : Bool := c.isDigit || c = '+'

def cleanPhone (s : String) : String := ⟨s.data.filter keepDigitPlus⟩

/-- The test `/^\+\d{11,15}$/.test cleaned`. -/
def phoneRegexTest (s : String) : Bool :=
  match s.data with
  | c :: rest =>
    c == '+' && rest.all Char.isDigit && decide (11 ≤ rest.length) && decide (rest.length ≤ 15)
  | [] => false

def validatePhoneNumber (number : String) : Except String String :=
  let cleaned := cleanPhone number
  if phoneRegexTest cleaned then .ok cleaned
  else .error ("Invalid phone number format: " ++ number)

/-- The input class named by the claim: exactly one `+`, which is the
leading character of the raw string, and 11-15 digits, the remaining
characters being separators (non-digit, non-plus). -/
def claimPhoneClass (s : String) : Bool :=
  match s.data with
  | '+' :: rest =>
    rest.all (fun c => c ≠ '+') && decide (11 ≤ (rest.filter Char.isDigit).length)
      && decide ((rest.filter Char.isDigit).length ≤ 15)
  | _ => false

/-! ## The validated Ticket record

A JS value bound to an optional field of the validated ticket is either
`undefined` (the key is absent), `null`, or a proper value.  `Field α :=
Option (Option α)` encodes this: `none` = absent/undefined, `some none` =
null, `some (some v)` = the value `v`.  JS truthiness on such a string
field (`if (ticket.source)`) is: present, non-null and non-empty. -/

abbrev Field (α : Type) : Type := Option (Option α)

/-- JS truthiness of an optional string field: `undefined`, `null` and
`""` are falsy. -/
def strTruthy : Field String → Option String
  | some (some s) => if s.isEmpty then none else some s
  | _ => none

inductive TicketType where
  | service_request
  | not_service_request
deriving DecidableEq, Repr

inductive Urgency where
  | low
  | medium
  | high
  | emergency
deriving DecidableEq, Repr

inductive SystemType where
  | heating
  | cooling
  | plumbing
  | other
deriving DecidableEq, Repr

def urgName : Urgency → String
  | .low => "low"
  | .medium => "medium"
  | .high => "high"
  | .emergency => "emergency"

def sysName : SystemType → String
  | .heating => "heating"
  | .cooling => "cooling"
  | .plumbing => "plumbing"
  | .other => "other"

structure LocationT where
  street_address : Field String
  city : Field String
  state : Field String
  zip : Field String
deriving DecidableEq, Repr

structure TicketT where
  type : TicketType
  customer_name : Field String
  location : Field LocationT
  description : Field String
  source : Field String
  ticket_link : Field String
  urgency : Field Urgency
  system_type : Field SystemType
  requested_date : Field String
  contact_phone : Field String
  notes : Field String
deriving DecidableEq, Repr

/-! ## formatServiceTicketMessage (src/openphone.mjs, lines 81-162) -/

/-- `urgencyEmojis[ticket.urgency] || ''`: the object lookup is
`undefined` (hence `''`) when the field is absent or null. -/
def urgencyEmoji : Field Urgency → String
  | some (some .emergency) => "🚨"
  | some (some .high) => "❗"
  | some (some .medium) => "⚠️"
  | some (some .low) => "📝"
  | _ => ""

def systemEmoji : SystemType → String
  | .heating => "🔥"
  | .cooling => "❄️"
  | .plumbing => "🚰"
  | .other => "🔧"

/-- The `Location:` fragment list: `[street, city, state, zip].filter(Boolean).join(', ')`. -/
def locationLine (L : LocationT) : String :=
  String.intercalate ", "
    ([L.street_address, L.city, L.state, L.zip].filterMap strTruthy)

def formatServiceTicketMessage (ticket : Option TicketT) : Option String :=
  match ticket with
  | none => none
  | some t =>
    if t.type ≠ TicketType.service_request then none
    else
      let parts : List String :=
        [urgencyEmoji t.urgency ++ " New Service Request", ""]
        ++ (match strTruthy t.source with
            | some s => ["Source: " ++ s, ""]
            | none => [])
        ++ (match strTruthy t.customer_name with
            | some s => ["Customer: " ++ s]
            | none => [])
        ++ (match t.location with
            | some (some L) =>
              if (locationLine L).isEmpty then [] else ["Location: " ++ locationLine L]
            | _ => [])
        ++ (match t.system_type with
            | some (some st) => ["System: " ++ systemEmoji st ++ " " ++ sysName st]
            | _ => [])
        ++ (match strTruthy t.description with
            | some s => ["", "Issue: " ++ s]
            | none => [])
        ++ (match strTruthy t.requested_date with
            | some s => ["", "Requested Date: " ++ s]
            | none => [])
        ++ (match strTruthy t.contact_phone with
            | some s => ["Contact: " ++ s]
            | none => [])
        ++ (match strTruthy t.notes with
            | some s => ["", "Notes: " ++ s]
            | none => [])
        ++ (match strTruthy t.ticket_link with
            | some s => ["", s]
            | none => [])
      some (String.intercalate "\n" parts)

/-! ## moveToProcessed (src/emailParser.mjs, lines 50-102)

The wall clock is passed in as a `DateT`; the object store is passed in
as a `StoreFx` giving the outcome of each of the three S3 calls the
function can issue.  The result records the returned key or thrown
error together with the ordered trace of attempted S3 operations (each
tagged with whether it succeeded). -/

structure DateT where
  year : Nat
  month : Nat
  day : Nat
  epochMillis : Nat
deriving DecidableEq, Repr

def pad2 (n : Nat) : String :=
  if n < 10 then "0" ++ toString n else toString n

/-- `date.toISOString().split('T')[0]` — the `YYYY-MM-DD` date part. -/
def isoDate (d : DateT) : String :=
  toString d.year ++ "-" ++ pad2 d.month ++ "-" ++ pad2 d.day

/-- `${date.getFullYear()}-${String(date.getMonth() + 1).padStart(2, '0')}` -/
def monthDir (d : DateT) : String :=
  toString d.year ++ "-" ++ pad2 d.month

/-- `key.split('/')` at the character level. -/
def splitOnSlash : List Char → List (List Char)
  | [] => [[]]
  | c :: rest =>
    if c = '/' then [] :: splitOnSlash rest
    else
      match splitOnSlash rest with
      | [] => [[c]]
      | h :: t => (c :: h) :: t

def lastD : List (List Char) → List Char
  | [] => []
  | [x] => x
  | _ :: xs => lastD xs

/-- `sourceKey.split('/').pop()` -/
def keyTail (key : String) : String :=
  ⟨lastD (splitOnSlash key.data)⟩

/-- `ticket.location ? [city, state].filter(Boolean).join('_') : 'unknown_location'` -/
def locPart (loc : Field LocationT) : String :=
  match loc with
  | some (some L) => String.intercalate "_" ([L.city, L.state].filterMap strTruthy)
  | _ => "unknown_location"

/-- `ticket.system_type || 'general'` -/
def sysPart (st : Field SystemType) : String :=
  match st with
  | some (some v) => sysName v
  | _ => "general"

/-- `ticket.urgency || 'normal'` -/
def urgPart (u : Field Urgency) : String :=
  match u with
  | some (some v) => urgName v
  | _ => "normal"

/-- The character class kept by `.replace(/[^a-z0-9-_\.]/g, '_')`. -/
def allowedChar (c : Char) : Bool :=
  ('a' ≤ c && c ≤ 'z') || c.isDigit || c = '-' || c = '_' || c = '.'

def replChar (c : Char) : Char :=
  if allowedChar c then c else '_'

/-- `.replace(/_+/g, '_')`: collapse maximal runs of underscores to one;
`prevU` records whether the previous output character was an underscore
emitted for the current run. -/
def collapseGo : Bool → List Char → List Char
  | _, [] => []
  | prevU, c :: rest =>
    if c = '_' then
      if prevU then collapseGo true rest
      else '_' :: collapseGo true rest
    else c :: collapseGo false rest

/-- `filename.toLowerCase().replace(/[^a-z0-9-_\.]/g, '_').replace(/_+/g, '_')` —
`toLowerCase` lower-cases character-wise. -/
def sanitize (s : String) : String :=
  ⟨collapseGo false ((s.data.map Char.toLower).map replChar)⟩

/-- The pre-sanitization filename built by `moveToProcessed`. -/
def rawFilename (d : DateT) (isServiceRequest : Bool) (ticket : Option TicketT)
    (sourceKey : String) : String :=
  match isServiceRequest, ticket with
  | true, some t =>
    isoDate d ++ "_" ++ locPart t.location ++ "_" ++ sysPart t.system_type
      ++ "_" ++ urgPart t.urgency ++ "_" ++ keyTail sourceKey
  | _, _ => isoDate d ++ "_" ++ keyTail sourceKey

def destFilename (d : DateT) (isServiceRequest : Bool) (ticket : Option TicketT)
    (sourceKey : String) : String :=
  sanitize (rawFilename d isServiceRequest ticket sourceKey)

def destKey (d : DateT) (isServiceRequest : Bool) (ticket : Option TicketT)
    (sourceKey : String) : String :=
  "processed/utah_mechanical_systems/"
    ++ (if isServiceRequest then "service_requests" else "non_service_requests")
    ++ "/" ++ monthDir d ++ "/" ++ destFilename d isServiceRequest ticket sourceKey

/-- `errors/${sourceKey.split('/').pop()}_${Date.now()}` -/
def errorKey (d : DateT) (sourceKey : String) : String :=
  "errors/" ++ keyTail sourceKey ++ "_" ++ toString d.epochMillis

/-- Outcomes of the three S3 calls `moveToProcessed` can issue. -/
structure StoreFx where
  copyDest : Except String Unit
  deleteSrc : Except String Unit
  copyError : Except String Unit

inductive S3Op where
  | copy (src dst : String)
  | delete (key : String)
deriving DecidableEq, Repr

structure MoveOutcome where
  result : Except String String
  trace : List (S3Op × Bool)
deriving Repr

def moveToProcessed (fx : StoreFx) (d : DateT) (sourceKey : String)
    (isServiceRequest : Bool) (ticket : Option TicketT) : MoveOutcome :=
  let newKey := destKey d isServiceRequest ticket sourceKey
  let errKey := errorKey d sourceKey
  match fx.copyDest with
  | .error e =>
    -- the copy threw: catch block copies to the error folder, then rethrows
    match fx.copyError with
    | .ok _ =>
      { result := .error e
        trace := [(.copy sourceKey newKey, false), (.copy sourceKey errKey, true)] }
    | .error e2 =>
      -- the error-folder copy itself threw; that error propagates instead
      { result := .error e2
        trace := [(.copy sourceKey newKey, false), (.copy sourceKey errKey, false)] }
  | .ok _ =>
    match fx.deleteSrc with
    | .error e =>
      match fx.copyError with
      | .ok _ =>
        { result := .error e
          trace := [(.copy sourceKey newKey, true), (.delete sourceKey, false),
                    (.copy sourceKey errKey, true)] }
      | .error e2 =>
        { result := .error e2
          trace := [(.copy sourceKey newKey, true), (.delete sourceKey, false),
                    (.copy sourceKey errKey, false)] }
    | .ok _ =>
      { result := .ok newKey
        trace := [(.copy sourceKey newKey, true), (.delete sourceKey, true)] }

/-- The filename transformation as the claim words it: lower-cased, and
every maximal run of non-alphanumeric characters collapsed to a single
underscore. -/
def claimSlugGo : Bool → List Char → List Char
  | _, [] => []
  | inRun, c :: rest =>
    if c.isAlphanum then c :: claimSlugGo false rest
    else if inRun then claimSlugGo true rest
    else '_' :: claimSlugGo true rest

def claimSlug (s : String) : String :=
  ⟨claimSlugGo false (s.data.map Char.toLower)⟩

/-! ## The zod ServiceTicket schema (src/emailParser.mjs, lines 25-44)

A classifier output value bound to an optional field is `absent` (the
key is missing), `null`, a string, or some other-typed value the schema
rejects.  `z.string().nullable().optional()` accepts the first three and
maps them to `none` / `some none` / `some (some s)` respectively: an
absent key stays absent in the parsed output.  Validation errors carry
the offending field path. -/

inductive JVal where
  | absent
  | nullv
  | str (s : String)
  | other
deriving DecidableEq, Repr

inductive JLoc where
  | absent
  | nullv
  | obj (street_address city state zip : JVal)
  | other
deriving DecidableEq, Repr

/-- The raw classifier output, one `JVal` per schema key. -/
structure RawTicket where
  type : JVal
  customer_name : JVal
  location : JLoc
  description : JVal
  source : JVal
  ticket_link : JVal
  urgency : JVal
  system_type : JVal
  requested_date : JVal
  contact_phone : JVal
  notes : JVal
deriving DecidableEq, Repr

/-- `z.string().nullable().optional()` at field path `p`. -/
def parseOptStr (p : String) : JVal → Except String (Field String)
  | .absent => .ok none
  | .nullv => .ok (some none)
  | .str s => .ok (some (some s))
  | .other => .error p

def urgencyOfString (s : String) : Option Urgency :=
  if s = "low" then some .low
  else if s = "medium" then some .medium
  else if s = "high" then some .high
  else if s = "emergency" then some .emergency
  else none

def systemOfString (s : String) : Option SystemType :=
  if s = "heating" then some .heating
  else if s = "cooling" then some .cooling
  else if s = "plumbing" then some .plumbing
  else if s = "other" then some .other
  else none

def typeOfString (s : String) : Option TicketType :=
  if s = "service_request" then some .service_request
  else if s = "not_service_request" then some .not_service_request
  else none

/-- `z.enum(['low','medium','high','emergency']).nullable().optional()` -/
def parseUrgency : JVal → Except String (Field Urgency)
  | .absent => .ok none
  | .nullv => .ok (some none)
  | .str s =>
    match urgencyOfString s with
    | some u => .ok (some (some u))
    | none => .error "urgency"
  | .other => .error "urgency"

/-- `z.enum(['heating','cooling','plumbing','other']).nullable().optional()` -/
def parseSystem : JVal → Except String (Field SystemType)
  | .absent => .ok none
  | .nullv => .ok (some none)
  | .str s =>
    match systemOfString s with
    | some v => .ok (some (some v))
    | none => .error "system_type"
  | .other => .error "system_type"

/-- `z.enum(['service_request','not_service_request'])` — required. -/
def parseType : JVal → Except String TicketType
  | .str s =>
    match typeOfString s with
    | some t => .ok t
    | none => .error "type"
  | _ => .error "type"

/-- The nested `Location` object schema, itself `.nullable().optional()`. -/
def parseLocation : JLoc → Except String (Field LocationT)
  | .absent => .ok none
  | .nullv => .ok (some none)
  | .obj a b c d =>
    (parseOptStr "location.street_address" a).bind fun sa =>
    (parseOptStr "location.city" b).bind fun ci =>
    (parseOptStr "location.state" c).bind fun st =>
    (parseOptStr "location.zip" d).bind fun zp =>
    .ok (some (some { street_address := sa, city := ci, state := st, zip := zp }))
  | .other => .error "location"

/-- `ServiceTicket.parse` over the whole object. -/
def ServiceTicketParse (r : RawTicket) : Except String TicketT :=
  (parseType r.type).bind fun ty =>
  (parseOptStr "customer_name" r.customer_name).bind fun cn =>
  (parseLocation r.location).bind fun lo =>
  (parseOptStr "description" r.description).bind fun de =>
  (parseOptStr "source" r.source).bind fun so =>
  (parseOptStr "ticket_link" r.ticket_link).bind fun tl =>
  (parseUrgency r.urgency).bind fun ur =>
  (parseSystem r.system_type).bind fun sy =>
  (parseOptStr "requested_date" r.requested_date).bind fun rd =>
  (parseOptStr "contact_phone" r.contact_phone).bind fun cp =>
  (parseOptStr "notes" r.notes).bind fun no =>
  .ok { type := ty, customer_name := cn, location := lo, description := de
        source := so, ticket_link := tl, urgency := ur, system_type := sy
        requested_date := rd, contact_phone := cp, notes := no }

/-! ## The notification fan-out of parseEmail (src/emailParser.mjs, lines 183-207)

Each recipient's sends are modelled by `sends number i`, the outcome of
the `i`-th `sendTextMessage` call to that number.  The arrow function in
`notificationNumbers.map` awaits `retryOperation(...)` inside `try`
*without returning its value*, so on success the mapped promise resolves
to `undefined`; only the catch branch returns a record.  An entry of
`message_delivery_status` is therefore `Option DeliveryResult`, with
`none` modelling `undefined`. -/

structure DeliveryResult where
  number : String
  success : Bool
  error : Option String
deriving DecidableEq, Repr

def deliveryEntry (send : Nat → Except String Unit) (number : String) :
    Option DeliveryResult :=
  let op : Nat → Except String DeliveryResult := fun i =>
    (send i).map fun _ => { number := number, success := true, error := none }
  match (retryOperation op).1 with
  | .ok _ => none
  | .error e => some { number := number, success := false, error := some (e.getD "") }

def deliveryStatuses (sends : String → Nat → Except String Unit)
    (numbers : List String) : List (Option DeliveryResult) :=
  numbers.map fun n => deliveryEntry (sends n) n

/-- `if (message)` — null and the empty string are falsy. -/
def msgTruthy : Option String → Bool
  | some m => !m.isEmpty
  | none => false

inductive PipeEvent where
  | attempted (number : String)
  | archive
deriving DecidableEq, Repr

/-- The post-validation phase of `parseEmail`: fan out the notifications
(`await Promise.all`), then — and only then — call `moveToProcessed`.
Returns the event trace in execution order, the archival outcome, and
`message_delivery_status`. -/
def notifyAndArchive (numbers : List String) (sends : String → Nat → Except String Unit)
    (fx : StoreFx) (d : DateT) (sourceKey : String) (t : TicketT) :
    List PipeEvent × MoveOutcome × List (Option DeliveryResult) :=
  let isSR : Bool := t.type = TicketType.service_request
  let notify : Bool := isSR && msgTruthy (formatServiceTicketMessage (some t))
  let statuses := if notify then deliveryStatuses sends numbers else []
  let mv := moveToProcessed fx d sourceKey isSR (some t)
  ((if notify then numbers.map PipeEvent.attempted else []) ++ [PipeEvent.archive],
   mv, statuses)

/-! ## The batch handler (src/index.mjs, lines 33-96)

The S3 listing is an `Except` value; `process key` is the outcome of
fetching and parsing one email (the per-item `try` block).  The
`statusCode`/`body` pair is the handler's return value. -/

inductive HandlerBody where
  | batch (message : String) (successful failed : Nat)
      (successfulKeys : List String) (failedItems : List (String × String))
  | failure (message : String) (error : String)
deriving DecidableEq, Repr

structure HandlerResponse where
  statusCode : Nat
  body : HandlerBody
deriving DecidableEq, Repr

/-- One element of the `Promise.all` over `response.Contents`. -/
def processItem (process : String → Except String Unit) (k : String) :
    String × Option String :=
  match process k with
  | .ok _ => (k, none)
  | .error e => (k, some e)

def handler (listing : Except String (List String))
    (process : String → Except String Unit) : HandlerResponse :=
  match listing with
  | .error e =>
    { statusCode := 500, body := .failure "Error processing emails" e }
  | .ok keys =>
    let results := keys.map (processItem process)
    let succ := results.filter fun r => r.2.isNone
    let fail := results.filter fun r => r.2.isSome
    { statusCode := 200
      body := .batch
        ("Successfully processed " ++ toString succ.length ++ " out of "
          ++ toString keys.length ++ " emails")
        succ.length fail.length
        (succ.map fun r => r.1)
        (fail.filterMap fun r => r.2.map fun e => (r.1, e)) }

/-! ## Claim-side and concrete-input definitions -/

/-- The exact acceptance condition of `validatePhoneNumber`: the
subsequence of digits and `+` signs of the raw input is one `+` followed
by 11-15 digits (the `+` need not be the leading character of the raw
string). -/
def amendedPhoneOk (s : String) : Prop :=
  ∃ ds : List Char, s.data.filter keepDigitPlus = '+' :: ds
    ∧ (∀ c ∈ ds, c.isDigit) ∧ 11 ≤ ds.length ∧ ds.length ≤ 15

/-- A validated service-request ticket with every optional field absent. -/
def ticketAllAbsent : TicketT :=
  { type := .service_request, customer_name := none, location := none, description := none
    source := none, ticket_link := none, urgency := none, system_type := none
    requested_date := none, contact_phone := none, notes := none }

def ticketNotSR : TicketT := { ticketAllAbsent with type := .not_service_request }

/-- A classifier output giving a ticket type and omitting every optional
key. -/
def rawAllAbsent : RawTicket :=
  { type := .str "service_request", customer_name := .absent, location := .absent
    description := .absent, source := .absent, ticket_link := .absent, urgency := .absent
    system_type := .absent, requested_date := .absent, contact_phone := .absent
    notes := .absent }

/-- The property the claim asserts of every validated ticket: each
optional field (and each location sub-field) is present — `null` or a
value, never an omitted key. -/
def allOptionalExplicit (t : TicketT) : Bool :=
  t.customer_name.isSome && t.description.isSome && t.source.isSome
    && t.ticket_link.isSome && t.requested_date.isSome && t.contact_phone.isSome
    && t.notes.isSome && t.location.isSome && t.urgency.isSome && t.system_type.isSome
    && (match t.location with
        | some (some L) =>
          L.street_address.isSome && L.city.isSome && L.state.isSome && L.zip.isSome
        | _ => true)

/-- `process k` succeeded. -/
def procOk (process : String → Except String Unit) (k : String) : Bool :=
  match process k with
  | .ok _ => true
  | .error _ => false

/-- The error message recorded for a failed `process k`. -/
def procErr (process : String → Except String Unit) (k : String) : String :=
  match process k with
  | .ok _ => ""
  | .error e => e

/-- A store in which every S3 call succeeds. -/
def fxAllOk : StoreFx := ⟨.ok (), .ok (), .ok ()⟩

def exIsOk : Except String Unit → Bool
  | .ok _ => true
  | .error _ => false

def c8Date : DateT := ⟨2026, 10, 11, 1760000000000⟩

def c8Key : String := "incoming/utah_mechanical_systems/ABC123"

/-- The spec's end-to-end example ticket: emergency heating request in
Salt Lake City, UT. -/
def c8Ticket : TicketT :=
  { type := .service_request, customer_name := none
    location := some (some { street_address := none, city := some (some "Salt Lake City")
                             state := some (some "UT"), zip := none })
    description := none, source := none, ticket_link := none
    urgency := some (some .emergency), system_type := some (some .heating)
    requested_date := none, contact_phone := none, notes := none }

/-! ## Claims C5 and C10 — RetryExecutor -/

/-- Helper: the retry loop invokes the operation at least as many times as
attempts already made. -/
theorem retryGo_calls_ge (op : Nat → Except String α) :
    ∀ (remaining i : Nat) (le : Option String), i ≤ (retryGo op remaining i le).2.1 := by
  intro remaining
  induction remaining with
  | zero => intro i le; simp [retryGo]
  | succ n ih =>
    intro i le
    simp only [retryGo]
    cases op i with
    | ok v => simp
    | error e =>
      by_cases hn : n = 0
      · simp [hn]
      · simp [hn]
        exact le_trans (Nat.le_succ i) (ih (i + 1) (some e))

/-- C5: with `maxRetries = 3`, an operation failing twice then succeeding is
called exactly 3 times and yields the success value, with backoff delays
`RETRY_DELAY * 2^0` and `RETRY_DELAY * 2^1` between attempts; an operation
that always fails is called exactly 3 times and the last error is rethrown
with its message intact. -/
theorem C5_retryExecutor (α : Type) (op opf : Nat → Except String α)
    (e0 e1 : String) (v : α) (es : Nat → String)
    (h0 : op 0 = .error e0) (h1 : op 1 = .error e1) (h2 : op 2 = .ok v)
    (hf : ∀ i, opf i = .error (es i)) :
    retryOperation op 3 = (.ok v, 3, [RETRY_DELAY * 2 ^ 0, RETRY_DELAY * 2 ^ 1])
    ∧ retryOperation opf 3 = (.error (some (es 2)), 3, [RETRY_DELAY * 2 ^ 0, RETRY_DELAY * 2 ^ 1]) := by
  constructor
  · simp [retryOperation, retryGo, h0, h1, h2]
  · simp [retryOperation, retryGo, hf]

theorem C5_retryExecutor_witness :
    retryOperation (fun i => if i < 2 then Except.error ("e" ++ toString i) else Except.ok 42) 3
      = (.ok 42, 3, [RETRY_DELAY * 2 ^ 0, RETRY_DELAY * 2 ^ 1])
    ∧ retryOperation (fun i => (Except.error (toString i) : Except String Nat)) 3
      = (.error (some (toString 2)), 3, [RETRY_DELAY * 2 ^ 0, RETRY_DELAY * 2 ^ 1]) :=
  C5_retryExecutor Nat _ _ ("e" ++ toString 0) ("e" ++ toString 1) 42 (fun i => toString i)
    rfl rfl rfl (fun _ => rfl)

/-- C10: with `maxRetries = 0` the loop body never runs, so the operation is
never invoked and `throw lastError` throws the still-`undefined` variable
(modelled `.error none`); with `maxRetries ≥ 1` the operation is invoked at
least once. -/
theorem C10_retryZero (op : Nat → Except String Nat) (m : Nat) (hm : 1 ≤ m) :
    retryOperation op 0 = (.error none, 0, [])
    ∧ 1 ≤ (retryOperation op m).2.1 := by
  constructor
  · rfl
  · obtain ⟨k, rfl⟩ : ∃ k, m = k + 1 := ⟨m - 1, by omega⟩
    simp only [retryOperation, retryGo]
    cases op 0 with
    | ok v => simp
    | error e =>
      by_cases hk : k = 0
      · simp [hk]
      · simp [hk]
        exact retryGo_calls_ge op k 1 (some e)

theorem C10_retryZero_witness :
    retryOperation (fun _ => (Except.ok 7 : Except String Nat)) 0 = (.error none, 0, [])
    ∧ 1 ≤ (retryOperation (fun _ => (Except.ok 7 : Except String Nat)) 3).2.1 :=
  C10_retryZero (fun _ => Except.ok 7) 3 (by decide)

/-! ## Claim C6 — PhoneNumberValidator -/

theorem phoneRegexTest_eq_true_iff (l : List Char) :
    phoneRegexTest ⟨l⟩ = true
      ↔ ∃ ds, l = '+' :: ds ∧ (∀ c ∈ ds, c.isDigit) ∧ 11 ≤ ds.length ∧ ds.length ≤ 15 := by
  cases l with
  | nil => simp [phoneRegexTest]
  | cons c rest =>
    simp only [phoneRegexTest, Bool.and_eq_true, beq_iff_eq, List.all_eq_true,
      decide_eq_true_eq]
    constructor
    · rintro ⟨⟨⟨rfl, hdig⟩, h1⟩, h2⟩
      exact ⟨rest, rfl, hdig, h1, h2⟩
    · rintro ⟨ds, heq, hdig, h1, h2⟩
      obtain ⟨rfl, rfl⟩ := And.intro (List.cons.inj heq).1 (List.cons.inj heq).2
      exact ⟨⟨⟨rfl, hdig⟩, h1⟩, h2⟩

/-- C6 fails as stated: `"a+12345678901"` is not in the claimed input class
(its single `+` is not the leading character), yet the validator accepts it
instead of failing with `InvalidPhoneNumber`. -/
theorem C6_counterexample :
    validatePhoneNumber "a+12345678901" = .ok "+12345678901"
    ∧ claimPhoneClass "a+12345678901" = false := by
  constructor
  · decide
  · decide

/-- C6 amended: the validator accepts exactly the raw strings whose
subsequence of digits and `+` characters is one `+` followed by 11-15
digits — the `+` need not be leading, and non-digit separators may appear
anywhere — returning that subsequence; every other input fails with the
invalid-phone-number error. -/
theorem C6_amended (s : String) :
    (amendedPhoneOk s → validatePhoneNumber s = .ok ⟨s.data.filter keepDigitPlus⟩)
    ∧ (¬ amendedPhoneOk s →
        validatePhoneNumber s = .error ("Invalid phone number format: " ++ s)) := by
  have key : phoneRegexTest (cleanPhone s) = true ↔ amendedPhoneOk s :=
    phoneRegexTest_eq_true_iff (s.data.filter keepDigitPlus)
  constructor
  · intro h
    simp [validatePhoneNumber, key.mpr h]
    rfl
  · intro h
    have hf : phoneRegexTest (cleanPhone s) = false := by
      cases hb : phoneRegexTest (cleanPhone s)
      · rfl
      · exact absurd (key.mp hb) h
    simp [validatePhoneNumber, hf]

theorem C6_amended_witness :
    validatePhoneNumber "+1 (234) 567-8901" = .ok "+12345678901"
    ∧ validatePhoneNumber "abc" = .error ("Invalid phone number format: " ++ "abc") := by
  constructor
  · have h := (C6_amended "+1 (234) 567-8901").1
      ⟨"12345678901".data, by decide, by decide, by decide, by decide⟩
    exact h.trans (by decide)
  · refine (C6_amended "abc").2 ?_
    rintro ⟨ds, hds, -⟩
    have hf : ("abc").data.filter keepDigitPlus = [] := by decide
    rw [hf] at hds
    exact absurd hds (by simp)

/-! ## Claim C9 — TicketFormatter on non-service-request tickets -/

/-- C9: for a missing ticket, and for every ticket whose type is not
`service_request`, the formatter returns null, so no message is built. -/
theorem C9_formatter_nonservice (t? : Option TicketT)
    (h : t? = none ∨ ∃ t, t? = some t ∧ t.type = TicketType.not_service_request) :
    formatServiceTicketMessage t? = none := by
  rcases h with rfl | ⟨t, rfl, ht⟩
  · rfl
  · simp [formatServiceTicketMessage, ht]

theorem C9_formatter_nonservice_witness :
    formatServiceTicketMessage (some ticketNotSR) = none :=
  C9_formatter_nonservice _ (Or.inr ⟨ticketNotSR, rfl, rfl⟩)

/-! ## Claim C2 — TicketSchema and unspecified optional fields -/

theorem bind_ok_iff {α β : Type} (x : Except String α) (f : α → Except String β) (b : β) :
    x.bind f = .ok b ↔ ∃ a, x = .ok a ∧ f a = .ok b := by
  cases x with
  | ok a => simp [Except.bind]
  | error e => simp [Except.bind]

theorem parseOptStr_field (p : String) (j : JVal) (f : Field String)
    (h : parseOptStr p j = .ok f) :
    (f = none ↔ j = .absent) ∧ (f = some none ↔ j = .nullv) := by
  cases j <;> simp [parseOptStr] at h <;> simp [← h]

theorem parseUrgency_field (j : JVal) (f : Field Urgency)
    (h : parseUrgency j = .ok f) :
    (f = none ↔ j = .absent) ∧ (f = some none ↔ j = .nullv) := by
  cases j with
  | absent => simp [parseUrgency] at h; simp [← h]
  | nullv => simp [parseUrgency] at h; simp [← h]
  | str s => cases hu : urgencyOfString s <;> simp [parseUrgency, hu] at h <;> simp [← h]
  | other => simp [parseUrgency] at h

theorem parseSystem_field (j : JVal) (f : Field SystemType)
    (h : parseSystem j = .ok f) :
    (f = none ↔ j = .absent) ∧ (f = some none ↔ j = .nullv) := by
  cases j with
  | absent => simp [parseSystem] at h; simp [← h]
  | nullv => simp [parseSystem] at h; simp [← h]
  | str s => cases hu : systemOfString s <;> simp [parseSystem, hu] at h <;> simp [← h]
  | other => simp [parseSystem] at h

theorem parseLocation_field (j : JLoc) (f : Field LocationT)
    (h : parseLocation j = .ok f) :
    (f = none ↔ j = .absent) ∧ (f = some none ↔ j = .nullv) := by
  cases j with
  | absent => simp [parseLocation] at h; simp [← h]
  | nullv => simp [parseLocation] at h; simp [← h]
  | obj a b c d =>
    simp [parseLocation, bind_ok_iff] at h
    obtain ⟨sa, hsa, ci, hci, st, hst, zp, hzp, hf⟩ := h
    simp [← hf]
  | other => simp [parseLocation] at h

theorem parseLocation_obj (a b c d : JVal) (f : Field LocationT)
    (h : parseLocation (.obj a b c d) = .ok f) :
    ∃ L, f = some (some L)
      ∧ ((L.street_address = none ↔ a = .absent)
          ∧ (L.street_address = some none ↔ a = .nullv))
      ∧ ((L.city = none ↔ b = .absent) ∧ (L.city = some none ↔ b = .nullv))
      ∧ ((L.state = none ↔ c = .absent) ∧ (L.state = some none ↔ c = .nullv))
      ∧ ((L.zip = none ↔ d = .absent) ∧ (L.zip = some none ↔ d = .nullv)) := by
  simp [parseLocation, bind_ok_iff] at h
  obtain ⟨sa, hsa, ci, hci, st, hst, zp, hzp, hf⟩ := h
  exact ⟨⟨sa, ci, st, zp⟩, hf.symm,
    parseOptStr_field _ _ _ hsa, parseOptStr_field _ _ _ hci,
    parseOptStr_field _ _ _ hst, parseOptStr_field _ _ _ hzp⟩

/-- C2 fails as stated: the classifier output `rawAllAbsent` (every
optional key omitted) is accepted by the schema, but the validated record
leaves every optional field absent rather than coercing it to an explicit
null. -/
theorem C2_counterexample :
    ServiceTicketParse rawAllAbsent = .ok ticketAllAbsent
    ∧ allOptionalExplicit ticketAllAbsent = false := by
  constructor
  · rfl
  · rfl

/-- C2 amended: validation preserves the presence structure of accepted
input exactly — an optional field is absent in the validated record iff
its key was absent in the classifier output, and explicitly null iff the
input was null; the schema accepts omitted keys but never coerces absence
to null (top-level fields and location sub-fields alike). -/
theorem C2_amended (r : RawTicket) (t : TicketT) (h : ServiceTicketParse r = .ok t) :
    ((t.customer_name = none ↔ r.customer_name = .absent)
      ∧ (t.customer_name = some none ↔ r.customer_name = .nullv))
    ∧ ((t.description = none ↔ r.description = .absent)
      ∧ (t.description = some none ↔ r.description = .nullv))
    ∧ ((t.source = none ↔ r.source = .absent)
      ∧ (t.source = some none ↔ r.source = .nullv))
    ∧ ((t.ticket_link = none ↔ r.ticket_link = .absent)
      ∧ (t.ticket_link = some none ↔ r.ticket_link = .nullv))
    ∧ ((t.requested_date = none ↔ r.requested_date = .absent)
      ∧ (t.requested_date = some none ↔ r.requested_date = .nullv))
    ∧ ((t.contact_phone = none ↔ r.contact_phone = .absent)
      ∧ (t.contact_phone = some none ↔ r.contact_phone = .nullv))
    ∧ ((t.notes = none ↔ r.notes = .absent)
      ∧ (t.notes = some none ↔ r.notes = .nullv))
    ∧ ((t.urgency = none ↔ r.urgency = .absent)
      ∧ (t.urgency = some none ↔ r.urgency = .nullv))
    ∧ ((t.system_type = none ↔ r.system_type = .absent)
      ∧ (t.system_type = some none ↔ r.system_type = .nullv))
    ∧ ((t.location = none ↔ r.location = .absent)
      ∧ (t.location = some none ↔ r.location = .nullv))
    ∧ (∀ a b c d, r.location = .obj a b c d →
        ∃ L, t.location = some (some L)
          ∧ ((L.street_address = none ↔ a = .absent)
              ∧ (L.street_address = some none ↔ a = .nullv))
          ∧ ((L.city = none ↔ b = .absent) ∧ (L.city = some none ↔ b = .nullv))
          ∧ ((L.state = none ↔ c = .absent) ∧ (L.state = some none ↔ c = .nullv))
          ∧ ((L.zip = none ↔ d = .absent) ∧ (L.zip = some none ↔ d = .nullv))) := by
  simp only [ServiceTicketParse, bind_ok_iff] at h
  obtain ⟨ty, hty, cn, hcn, lo, hlo, de, hde, so, hso, tl, htl, ur, hur, sy, hsy,
    rd, hrd, cp, hcp, no, hno, ht⟩ := h
  have ht' : t = { type := ty, customer_name := cn, location := lo, description := de
                   source := so, ticket_link := tl, urgency := ur, system_type := sy
                   requested_date := rd, contact_phone := cp, notes := no } := by
    cases ht; rfl
  subst ht'
  refine ⟨parseOptStr_field _ _ _ hcn, parseOptStr_field _ _ _ hde,
    parseOptStr_field _ _ _ hso, parseOptStr_field _ _ _ htl,
    parseOptStr_field _ _ _ hrd, parseOptStr_field _ _ _ hcp,
    parseOptStr_field _ _ _ hno, parseUrgency_field _ _ hur,
    parseSystem_field _ _ hsy, parseLocation_field _ _ hlo, ?_⟩
  intro a b c d hobj
  rw [hobj] at hlo
  exact parseLocation_obj a b c d lo hlo

theorem C2_amended_witness :
    ticketAllAbsent.customer_name = none ↔ rawAllAbsent.customer_name = JVal.absent :=
  ((C2_amended rawAllAbsent ticketAllAbsent rfl).1).1

/-! ## Claim C1 — message_delivery_status entries -/

/-- C1 describes the intended behavior, but the code drops the success
record: the `try` block of the per-recipient arrow function awaits
`retryOperation(...)` without returning its value, so a recipient whose
delivery succeeds contributes `undefined` (modelled `none`) to
`message_delivery_status` instead of a `DeliveryResult` with
`success: true`; only a failed recipient contributes a record. -/
theorem C1_delivery_status_undefined :
    (notifyAndArchive ["+15551234567"] (fun _ _ => .ok ()) fxAllOk c8Date c8Key
        ticketAllAbsent).2.2 = [none]
    ∧ (notifyAndArchive ["+15551234567"] (fun _ _ => .error "boom") fxAllOk c8Date c8Key
        ticketAllAbsent).2.2
      = [some { number := "+15551234567", success := false, error := some "boom" }] := by
  constructor
  · rfl
  · rfl

/-! ## Claim C7 — archival strictly after all notification attempts -/

/-- C7: in the post-validation phase the event trace is exactly the
notification attempts (one per configured recipient when the ticket is a
service request with a truthy message, none otherwise) followed by the
single archival event — so the source is archived only after every
recipient's delivery was attempted, and this holds for every assignment
of delivery outcomes, i.e. a failed delivery never prevents archival. -/
theorem C7_archive_after_notifications (numbers : List String)
    (sends : String → Nat → Except String Unit) (fx : StoreFx) (d : DateT)
    (sourceKey : String) (t : TicketT) :
    (notifyAndArchive numbers sends fx d sourceKey t).1
      = (if (decide (t.type = TicketType.service_request)
              && msgTruthy (formatServiceTicketMessage (some t))) = true
         then numbers.map PipeEvent.attempted else []) ++ [PipeEvent.archive]
    ∧ ((notifyAndArchive numbers sends fx d sourceKey t).1).getLast? = some PipeEvent.archive
    ∧ ((notifyAndArchive numbers sends fx d sourceKey t).1).count PipeEvent.archive = 1 := by
  have htr : (notifyAndArchive numbers sends fx d sourceKey t).1
      = (if (decide (t.type = TicketType.service_request)
              && msgTruthy (formatServiceTicketMessage (some t))) = true
         then numbers.map PipeEvent.attempted else []) ++ [PipeEvent.archive] := rfl
  refine ⟨htr, ?_, ?_⟩
  · rw [htr]
    by_cases h : (decide (t.type = TicketType.service_request)
        && msgTruthy (formatServiceTicketMessage (some t))) = true
    · simp [h, List.getLast?_concat]
    · simp [h, List.getLast?_concat]
  · rw [htr]
    by_cases h : (decide (t.type = TicketType.service_request)
        && msgTruthy (formatServiceTicketMessage (some t))) = true
    · simp [h, List.count_append, List.count_eq_zero, List.mem_map]
    · simp [h]

/-! ## Claim C3 — batch handler status codes and per-item breakdown -/

theorem handler_filter_none (process : String → Except String Unit) (keys : List String) :
    ((keys.map (processItem process)).filter fun r => r.2.isNone)
      = (keys.filter (procOk process)).map fun k => (k, (none : Option String)) := by
  induction keys with
  | nil => rfl
  | cons k ks ih => cases hk : process k <;> simp [processItem, procOk, hk, ih]

theorem handler_filter_some_list (process : String → Except String Unit) (keys : List String) :
    ((keys.map (processItem process)).filter fun r => r.2.isSome)
      = (keys.filter fun k => !procOk process k).map
          fun k => (k, some (procErr process k)) := by
  induction keys with
  | nil => rfl
  | cons k ks ih => cases hk : process k <;> simp [processItem, procOk, procErr, hk, ih]

theorem filterMap_map_somepair (h : α → String) (l : List α) :
    ((l.map fun k => (k, some (h k))).filterMap fun r => r.2.map fun e => (r.1, e))
      = l.map fun k => (k, h k) := by
  induction l with
  | nil => rfl
  | cons a l ih => simp [ih]

theorem map_fst_pair_none (l : List String) :
    ((l.map fun k => (k, (none : Option String))).map fun r => r.1) = l := by
  induction l with
  | nil => rfl
  | cons a l ih => simp [ih]

theorem filter_length_partition (p : α → Bool) (l : List α) :
    (l.filter p).length + (l.filter fun a => !p a).length = l.length := by
  induction l with
  | nil => rfl
  | cons a l ih =>
    by_cases h : p a = true
    · simp [h]; omega
    · simp [h]; omega

/-- C3: when the listing call succeeds, the handler returns statusCode 200
with a per-item breakdown — the successful keys are exactly the listed
keys whose processing succeeded, each failed key is paired with its own
error message, and the two groups together account for every listed
email; only when the listing call itself fails does it return
statusCode 500 carrying the error message. -/
theorem C3_handler_behavior (listing : Except String (List String))
    (process : String → Except String Unit) :
    (∀ keys, listing = .ok keys →
      handler listing process =
        { statusCode := 200
          body := .batch
            ("Successfully processed " ++ toString (keys.filter (procOk process)).length
              ++ " out of " ++ toString keys.length ++ " emails")
            (keys.filter (procOk process)).length
            (keys.filter fun k => !procOk process k).length
            (keys.filter (procOk process))
            ((keys.filter fun k => !procOk process k).map
              fun k => (k, procErr process k)) }
      ∧ (keys.filter (procOk process)).length
          + (keys.filter fun k => !procOk process k).length = keys.length)
    ∧ (∀ e, listing = .error e →
        handler listing process =
          { statusCode := 500, body := .failure "Error processing emails" e }) := by
  constructor
  · rintro keys rfl
    refine ⟨?_, filter_length_partition _ _⟩
    simp only [handler]
    rw [handler_filter_none process keys, handler_filter_some_list process keys,
      map_fst_pair_none, filterMap_map_somepair]
    simp only [List.length_map]
  · rintro e rfl
    rfl

theorem C3_handler_behavior_witness :
    handler (.ok ["k1", "k2"]) (fun k => if k = "k1" then .ok () else .error "bad")
      = { statusCode := 200
          body := .batch "Successfully processed 1 out of 2 emails" 1 1 ["k1"]
            [("k2", "bad")] }
    ∧ handler (.error "listfail") (fun _ => .ok ())
      = { statusCode := 500, body := .failure "Error processing emails" "listfail" } := by
  constructor
  · have h := ((C3_handler_behavior (.ok ["k1", "k2"])
        (fun k => if k = "k1" then .ok () else .error "bad")).1 ["k1", "k2"] rfl).1
    exact h.trans (by decide)
  · exact (C3_handler_behavior (.error "listfail") (fun _ => .ok ())).2 "listfail" rfl

/-! ## Claim C4 — ArchiveMover copy-then-delete with error-folder fallback -/

/-- C4: `moveToProcessed` always attempts the copy to the destination as
its first store operation; the delete of the original appears in the
trace only when that copy succeeded; when copy and delete both succeed it
returns the new key and touches no error location; when the copy or the
delete fails it attempts a copy of the source to the error location keyed
by the original name tail plus the epoch-millisecond timestamp and then
fails — rethrowing the original error whenever the error-folder copy
itself succeeds; in particular, after a successful copy and a failed
delete the caller sees the error and a successful error-location copy was
made. -/
theorem C4_archiveMover (fx : StoreFx) (d : DateT) (key : String)
    (isSR : Bool) (t? : Option TicketT) :
    (moveToProcessed fx d key isSR t?).trace.head?
        = some (.copy key (destKey d isSR t? key), exIsOk fx.copyDest)
    ∧ (∀ b, ((S3Op.delete key, b) ∈ (moveToProcessed fx d key isSR t?).trace)
        → fx.copyDest = .ok ())
    ∧ (fx.copyDest = .ok () → fx.deleteSrc = .ok () →
        (moveToProcessed fx d key isSR t?).result = .ok (destKey d isSR t? key)
        ∧ (moveToProcessed fx d key isSR t?).trace
            = [(.copy key (destKey d isSR t? key), true), (.delete key, true)])
    ∧ (∀ e, (fx.copyDest = .error e ∨ (fx.copyDest = .ok () ∧ fx.deleteSrc = .error e)) →
        (∃ b, (S3Op.copy key (errorKey d key), b) ∈ (moveToProcessed fx d key isSR t?).trace)
        ∧ (∃ e2, (moveToProcessed fx d key isSR t?).result = .error e2)
        ∧ (fx.copyError = .ok () → (moveToProcessed fx d key isSR t?).result = .error e))
    ∧ (∀ e, fx.copyDest = .ok () → fx.deleteSrc = .error e → fx.copyError = .ok () →
        (moveToProcessed fx d key isSR t?).result = .error e
        ∧ (S3Op.copy key (errorKey d key), true) ∈ (moveToProcessed fx d key isSR t?).trace) := by
  obtain ⟨c1, c2, c3⟩ := fx
  cases c1 <;> cases c2 <;> cases c3 <;>
    simp [moveToProcessed, exIsOk]

theorem C4_archiveMover_witness :
    (moveToProcessed ⟨.ok (), .error "delfail", .ok ()⟩ c8Date c8Key true
        (some c8Ticket)).result = .error "delfail"
    ∧ (S3Op.copy c8Key (errorKey c8Date c8Key), true)
        ∈ (moveToProcessed ⟨.ok (), .error "delfail", .ok ()⟩ c8Date c8Key true
            (some c8Ticket)).trace :=
  (C4_archiveMover ⟨.ok (), .error "delfail", .ok ()⟩ c8Date c8Key true
      (some c8Ticket)).2.2.2.2 "delfail" rfl rfl rfl

/-! ## Claim C8 — the archival filename slug -/

theorem allowed_replChar (c : Char) : allowedChar (replChar c) = true := by
  unfold replChar
  by_cases h : allowedChar c = true
  · simp [h]
  · simp [h]
    rfl

theorem mem_collapseGo (l : List Char) (b : Bool) (c : Char)
    (h : c ∈ collapseGo b l) : c ∈ l := by
  induction l generalizing b with
  | nil => simp [collapseGo] at h
  | cons a l ih =>
    simp only [collapseGo] at h
    by_cases ha : a = '_'
    · subst ha
      simp only [if_pos rfl] at h
      cases b with
      | true => exact List.mem_cons_of_mem _ (ih _ h)
      | false =>
        rcases List.mem_cons.mp h with rfl | h
        · exact List.mem_cons_self _ _
        · exact List.mem_cons_of_mem _ (ih _ h)
    · simp only [if_neg ha] at h
      rcases List.mem_cons.mp h with rfl | h
      · exact List.mem_cons_self _ _
      · exact List.mem_cons_of_mem _ (ih _ h)

theorem collapseGo_head_ne (l : List Char) :
    ∀ c, (collapseGo true l).head? = some c → c ≠ '_' := by
  induction l with
  | nil => intro c hc; simp [collapseGo] at hc
  | cons a l ih =>
    intro c hc
    by_cases ha : a = '_'
    · subst ha
      simp only [collapseGo, if_pos rfl] at hc
      exact ih c hc
    · simp only [collapseGo, if_neg ha, List.head?_cons, Option.some.injEq] at hc
      subst hc
      exact ha

theorem collapseGo_chain (l : List Char) (b : Bool) :
    (collapseGo b l).Chain' (fun x y => ¬(x = '_' ∧ y = '_')) := by
  induction l generalizing b with
  | nil => simp [collapseGo]
  | cons a l ih =>
    by_cases ha : a = '_'
    · subst ha
      cases b with
      | true =>
        have heq : collapseGo true ('_' :: l) = collapseGo true l := by
          simp [collapseGo]
        rw [heq]
        exact ih true
      | false =>
        have heq : collapseGo false ('_' :: l) = '_' :: collapseGo true l := by
          simp [collapseGo]
        rw [heq, List.chain'_cons']
        refine ⟨?_, ih true⟩
        intro y hy
        exact fun hcon => collapseGo_head_ne l y hy hcon.2
    · have heq : collapseGo b (a :: l) = a :: collapseGo false l := by
        simp [collapseGo, ha]
      rw [heq, List.chain'_cons']
      exact ⟨fun y _ hcon => ha hcon.1, ih false⟩

/-- C8 fails as stated on the spec's own end-to-end example: the code's
filename keeps the hyphens of the ISO date (the sanitizer preserves `-`,
`_` and `.`), while a filename in which every run of non-alphanumeric
characters is collapsed to a single underscore would turn them into
underscores — the two disagree. -/
theorem C8_counterexample :
    destFilename c8Date true (some c8Ticket) c8Key
      = "2026-10-11_salt_lake_city_ut_heating_emergency_abc123"
    ∧ claimSlug (rawFilename c8Date true (some c8Ticket) c8Key)
      = "2026_10_11_salt_lake_city_ut_heating_emergency_abc123"
    ∧ destFilename c8Date true (some c8Ticket) c8Key
        ≠ claimSlug (rawFilename c8Date true (some c8Ticket) c8Key) := by
  refine ⟨by decide, by decide, by decide⟩

set_option maxHeartbeats 1000000 in
/-- C8 amended: the service-request filename is the slug of
`timestamp_location_systemtype_urgency_originalTail` with the documented
fallbacks (`unknown_location`, `general`, `normal`), where the slug
transformation lower-cases the string, replaces every character outside
`a-z`, `0-9`, `-`, `_`, `.` by an underscore (hyphens and dots survive),
and collapses runs of underscores — so the result contains only allowed
characters and never two adjacent underscores. -/
theorem C8_amended (d : DateT) (t : TicketT) (key : String) :
    destFilename d true (some t) key
      = sanitize (isoDate d ++ "_" ++ locPart t.location ++ "_" ++ sysPart t.system_type
          ++ "_" ++ urgPart t.urgency ++ "_" ++ keyTail key)
    ∧ ((t.location = none ∨ t.location = some none) →
        locPart t.location = "unknown_location")
    ∧ ((t.system_type = none ∨ t.system_type = some none) →
        sysPart t.system_type = "general")
    ∧ ((t.urgency = none ∨ t.urgency = some none) → urgPart t.urgency = "normal")
    ∧ (∀ c ∈ (destFilename d true (some t) key).data, allowedChar c = true)
    ∧ (destFilename d true (some t) key).data.Chain' (fun x y => ¬(x = '_' ∧ y = '_')) := by
  refine ⟨rfl, ?_, ?_, ?_, ?_, ?_⟩
  · rintro (h | h) <;> simp [locPart, h]
  · rintro (h | h) <;> simp [sysPart, h]
  · rintro (h | h) <;> simp [urgPart, h]
  · intro c hc
    have hmem : c ∈ ((rawFilename d true (some t) key).data.map Char.toLower).map replChar :=
      mem_collapseGo _ _ _ hc
    obtain ⟨c0, -, rfl⟩ := List.mem_map.mp hmem
    exact allowed_replChar c0
  · exact collapseGo_chain _ _

theorem C8_amended_witness :
    locPart ticketAllAbsent.location = "unknown_location"
    ∧ sysPart ticketAllAbsent.system_type = "general"
    ∧ urgPart ticketAllAbsent.urgency = "normal" :=
  ⟨(C8_amended c8Date ticketAllAbsent c8Key).2.1 (Or.inl rfl),
   (C8_amended c8Date ticketAllAbsent c8Key).2.2.1 (Or.inl rfl),
   (C8_amended c8Date ticketAllAbsent c8Key).2.2.2.1 (Or.inl rfl)⟩

end Ums
